import Mathlib

/-!
Shallow embedding of the Mailblock JavaScript SDK (src/index.js, with the
public type declarations in src/index.d.ts), covering the send pipeline:
the fluent `EmailBuilder`, the `Mailblock.sendEmail` operation with its
validation rules, payload assembly, HTTP response normalization and error
classification.

Platform primitives (the wall clock, `Date` string parsing,
`Date.prototype.toISOString`, and the `fetch` transport) are passed in as
explicit parameters; everything else is translated directly from the source.
JavaScript `Date` instants are modelled as `Int` epoch milliseconds, and the
parsed JSON values exchanged with the backend as a small `Json` type.
-/

namespace Mailblock

/-- Parsed JSON values, as produced by `response.json()`. -/
inductive Json where
  | null : Json
  | bool : Bool → Json
  | num : Int → Json
  | str : String → Json
  | arr : List Json → Json
  | obj : List (String × Json) → Json

/-- JavaScript truthiness of a JSON value (objects and arrays are always
truthy; `""`, `0`, `false`, `null`/`undefined` are falsy). -/
def Json.truthy : Json → Bool
  | .null => false
  | .bool b => b
  | .num n => n != 0
  | .str s => s != ""
  | .arr _ => true
  | .obj _ => true

/-- First binding of a key among the fields of a JSON object. -/
def lookupFields : List (String × Json) → String → Option Json
  | [], _ => none
  | (k, v) :: rest, key => if k = key then some v else lookupFields rest key

/-- Property access `body.key` on a parsed JSON object: the first binding
wins; accessing a missing key (or a non-object) yields `undefined`, which we
model as `none`. -/
def Json.lookup : Json → String → Option Json
  | .obj fields, key => lookupFields fields key
  | _, _ => none

/-- A field that may hold one email address or a list of them
(`to`/`cc`/`bcc` accept `string | string[]`). -/
inductive StrOrList where
  | str : String → StrOrList
  | list : List String → StrOrList
  deriving DecidableEq, Repr

/-- A scheduling argument: a `Date` (epoch milliseconds) or a date string
(`scheduledAt` / `scheduleAt` accept `Date | string`). -/
inductive SchedVal where
  | date : Int → SchedVal
  | str : String → SchedVal
  deriving DecidableEq, Repr

/-- A thrown JavaScript error, as observed by the `catch` block:
its `name` and `message`. -/
structure JsError where
  name : String
  message : String
  deriving DecidableEq, Repr

/-- Outcome of the `fetch` exchange: either an HTTP response (status plus the
body parsed by `response.json()`), or a thrown exception (connection failure,
or any other throw inside the `try` block). -/
inductive TransportResult where
  | resp : Int → Json → TransportResult
  | exn : JsError → TransportResult

/-- Whitespace characters for the regex character class `\s`. -/
def isWsChar (c : Char) : Bool :=
  c = ' ' ∨ c = '\t' ∨ c = '\n' ∨ c = '\r' ∨ c = '\x0b' ∨ c = '\x0c'

/-- A character admitted by the regex character class `[^\s@]`. -/
def isAtomChar (c : Char) : Bool :=
  !isWsChar c && c ≠ '@'

/-- Split a character list at its unique `@`; `none` when the list holds no
`@` or more than one. -/
def splitAtSign : List Char → Option (List Char × List Char)
  | [] => none
  | c :: rest =>
      if c = '@' then
        if rest.contains '@' then none else some ([], rest)
      else
        match splitAtSign rest with
        | some (l, r) => some (c :: l, r)
        | none => none

/-- The email test `/^[^\s@]+@[^\s@]+\.[^\s@]+$/` (used identically by
`EmailBuilder._isValidEmail` and `Mailblock._validateEmailFields`): a
non-empty run of non-space non-`@` characters, one `@`, then a run that
contains a `.` with at least one admitted character on each side.  Since
`@` is excluded from every character class and the pattern is anchored, a
match forces exactly one `@` in the string; the domain part must carry a dot
that is neither its first nor its last character. -/
def isValidEmail (s : String) : Bool :=
  match splitAtSign s.toList with
  | some (local_, domain) =>
      !local_.isEmpty && local_.all isAtomChar &&
      domain.all isAtomChar &&
      (domain.drop 1).dropLast.contains '.'
  | none => false

/-- JavaScript `String.prototype.trim`: strip leading and trailing
whitespace. -/
def jsTrim (s : String) : String :=
  String.mk (((s.toList.dropWhile isWsChar).reverse.dropWhile isWsChar).reverse)

/-- JavaScript truthiness of an optional `string | string[]` field
(`undefined` and `""` are falsy; arrays are always truthy). -/
def truthyF : Option StrOrList → Bool
  | none => false
  | some (.str s) => s != ""
  | some (.list _) => true

/-- JavaScript truthiness of an optional string field. -/
def truthyS : Option String → Bool
  | none => false
  | some s => s != ""

/-- JavaScript truthiness of an optional `Date | string` field
(a `Date` object is always truthy; a string is truthy iff non-empty). -/
def truthySched : Option SchedVal → Bool
  | none => false
  | some (.date _) => true
  | some (.str s) => s != ""

/-- The logical fields of a send request: the destructured argument of
`Mailblock.sendEmail` and, equally, the `emailData` accumulator of
`EmailBuilder`. -/
structure SendInput where
  «to» : Option StrOrList := none
  cc : Option StrOrList := none
  bcc : Option StrOrList := none
  «from» : Option String := none
  subject : Option String := none
  text : Option String := none
  html : Option String := none
  scheduledAt : Option SchedVal := none
  deriving DecidableEq, Repr

/-- Result of `Mailblock._validateEmailFields` and its inner helper:
`none` models `{isValid: true}`, `some e` models `{isValid: false, error: e}`. -/
def validateEmailOrArray (emails : StrOrList) (fieldName : String) : Option String :=
  match emails with
  | .str s => if isValidEmail s then none
              else some ("Invalid " ++ fieldName ++ " email address: " ++ s)
  | .list l =>
      if l.isEmpty then some (fieldName ++ " array cannot be empty")
      else match l.find? (fun e => !isValidEmail e) with
           | some bad => some ("Invalid " ++ fieldName ++ " email address: " ++ bad)
           | none => none

/-- Model of `Mailblock._validateEmailFields`: validates `to`
(field name `recipient`), then `from` (always a single address), then `cc`
and `bcc` when provided.  `none` = valid, `some e` = the first error. -/
def validateEmailFields («to» cc bcc : Option StrOrList) («from» : Option String) : Option String :=
  match validateEmailOrArray («to».getD (.str "")) "recipient" with
  | some e => some e
  | none =>
    if !isValidEmail («from».getD "") then
      some ("Invalid sender email address: " ++ «from».getD "")
    else match cc with
    | some ccv =>
      (match validateEmailOrArray ccv "cc" with
       | some e => some e
       | none => match bcc with
                 | some bccv => validateEmailOrArray bccv "bcc"
                 | none => none)
    | none =>
      match bcc with
      | some bccv => validateEmailOrArray bccv "bcc"
      | none => none

/-- The outbound transport payload assembled by `sendEmail`: `to`, `from`,
`subject` always present; `text`, `html`, `cc`, `bcc` spread in only when
truthy; `scheduled_at` added when `scheduledAt` is truthy. -/
structure Payload where
  «to» : StrOrList
  «from» : String
  subject : String
  text : Option String := none
  html : Option String := none
  cc : Option StrOrList := none
  bcc : Option StrOrList := none
  scheduled_at : Option String := none
  deriving DecidableEq, Repr

/-- First half of `Mailblock.sendEmail`: either an early return from the
validation block, or the assembled payload that goes to `fetch`. -/
inductive SendStage where
  | validationError : String → SendStage
  | proceed : Payload → SendStage
  deriving DecidableEq, Repr

/-- The payload literal of `Mailblock.sendEmail` (src/index.js lines
224–237): `to`, `from`, `subject` always, the `...(x && \x7b x \x7d)`
conditional spreads for `text`/`html`/`cc`/`bcc`, and `scheduled_at` added
when `scheduledAt` is truthy — a `Date` goes through `toISOString` (`iso`),
a string is passed through unchanged. -/
def buildPayload (iso : Int → String) (i : SendInput) : Payload :=
  { «to» := i.«to».getD (.str "")
    «from» := i.«from».getD ""
    subject := i.subject.getD ""
    text := if truthyS i.text then i.text else none
    html := if truthyS i.html then i.html else none
    cc := if truthyF i.cc then i.cc else none
    bcc := if truthyF i.bcc then i.bcc else none
    scheduled_at :=
      if truthySched i.scheduledAt then
        match i.scheduledAt with
        | some (.date d) => some (iso d)
        | some (.str s) => some s
        | none => none
      else none }

/-- The validation block of `Mailblock.sendEmail` (src/index.js lines
162–237), in source order: presence of `to`, of `from`, of `subject`, of
`text`/`html`, then `_validateEmailFields`; then the payload assembly.
`iso` is the platform `Date.prototype.toISOString`. -/
def sendEmailStage (iso : Int → String) (i : SendInput) : SendStage :=
  if !truthyF i.«to» then
    .validationError "Recipient email address (to) is required"
  else if !truthyS i.«from» then
    .validationError "Sender email address (from) is required"
  else if !truthyS i.subject then
    .validationError "Email subject is required"
  else if !truthyS i.text && !truthyS i.html then
    .validationError "Either text or html content is required"
  else
    match validateEmailFields i.«to» i.cc i.bcc i.«from» with
    | some e => .validationError e
    | none => .proceed (buildPayload iso i)

/-- Model of `Mailblock._categorizeError(statusCode)`, branch for branch: the 4xx
check precedes the `=== 429` check, so the `RATE_LIMIT_ERROR` branch is
reachable only for a status that is 429 yet not in [400, 500) — never. -/
def categorizeError (statusCode : Int) : String :=
  if statusCode ≥ 400 ∧ statusCode < 500 then "CLIENT_ERROR"
  else if statusCode ≥ 500 then "SERVER_ERROR"
  else if statusCode = 429 then "RATE_LIMIT_ERROR"
  else "UNKNOWN_ERROR"

/-- Model of `Mailblock._getErrorSuggestion(statusCode)`: the fixed suggestion table. -/
def getErrorSuggestion (statusCode : Int) : String :=
  if statusCode = 400 then "Check your request parameters and try again"
  else if statusCode = 401 then "Verify your API key is correct and has proper permissions"
  else if statusCode = 403 then "Your API key may not have permission for this operation"
  else if statusCode = 404 then "The API endpoint was not found. Check the base URL"
  else if statusCode = 429 then "You are being rate limited. Wait a moment and try again"
  else if statusCode = 500 then "Server error occurred. Try again in a few moments"
  else if statusCode = 503 then "Service temporarily unavailable. Please try again later"
  else "Please try again or contact support if the issue persists"

/-- The fixed base endpoint set in the constructor. -/
def baseUrl : String := "https://sdk-backend-production-20e1.up.railway.app"

/-- The send endpoint `${this.baseUrl}/v1/send-email`. -/
def sendEndpoint : String := baseUrl ++ "/v1/send-email"

/-- Per-call diagnostic context: the generated request id, the ISO timestamp
captured at call start, and the measured wall-clock duration. -/
structure RequestCtx where
  requestId : String
  timestamp : String
  duration : Int
  deriving DecidableEq, Repr

/-- The uniform result envelope returned by `sendEmail`.  Fields absent from
a given return-object literal in the source are `none`. -/
structure Envelope where
  success : Bool
  error : Option Json := none
  errorType : Option String := none
  suggestion : Option String := none
  statusCode : Option Int := none
  data : Option Json := none
  message : Option String := none
  requestId : String
  timestamp : String
  duration : Int
  endpoint : Option String := none

/-- Whether `pat` occurs as a contiguous subsequence of `l`. -/
def hasSub (pat : List Char) : List Char → Bool
  | [] => pat.isEmpty
  | c :: rest => pat.isPrefixOf (c :: rest) || hasSub pat rest

/-- JavaScript `String.includes` as used on the thrown message to look for `fetch`. -/
def jsIncludes (s pat : String) : Bool :=
  hasSub pat.toList s.toList

/-- The `catch` branch condition
testing that the name equals `TypeError` and the message includes `fetch`:
whether a thrown error is identifiably a low-level fetch failure. -/
def isFetchTypeError (err : JsError) : Bool :=
  err.name == "TypeError" && jsIncludes err.message "fetch"

/-- Model of `Mailblock.sendEmail` end to end (src/index.js lines 154–335): the
validation block, then the `fetch` exchange (`transport`), the `!response.ok`
error branch with `_categorizeError`/`_getErrorSuggestion`, the success
return, and the `catch` branch distinguishing `NETWORK_ERROR` from
`UNKNOWN_ERROR`. -/
def sendEmail (ctx : RequestCtx) (iso : Int → String) (transport : TransportResult)
    (i : SendInput) : Envelope :=
  match sendEmailStage iso i with
  | .validationError e =>
      { success := false
        error := some (.str e)
        errorType := some "VALIDATION_ERROR"
        statusCode := none
        requestId := ctx.requestId
        timestamp := ctx.timestamp
        duration := ctx.duration }
  | .proceed _ =>
    match transport with
    | .resp status body =>
      if !(200 ≤ status ∧ status ≤ 299) then
        { success := false
          error :=
            match body.lookup "error" with
            | some e => if e.truthy then some e
                        else some (.str ("HTTP error! status: " ++ toString status))
            | none => some (.str ("HTTP error! status: " ++ toString status))
          errorType := some (categorizeError status)
          suggestion := some (getErrorSuggestion status)
          statusCode := some status
          requestId := ctx.requestId
          timestamp := ctx.timestamp
          duration := ctx.duration
          endpoint := some sendEndpoint }
      else
        { success := true
          data := some body
          message := some (if truthySched i.scheduledAt then "Email scheduled successfully"
                           else "Email sent successfully")
          requestId := ctx.requestId
          timestamp := ctx.timestamp
          duration := ctx.duration }
    | .exn err =>
      { success := false
        error := some (.str ("Failed to send email: " ++ err.message))
        errorType := some (if isFetchTypeError err
                           then "NETWORK_ERROR" else "UNKNOWN_ERROR")
        suggestion := some (if isFetchTypeError err
                            then "Check your internet connection and try again"
                            else "Please try again or contact support if the issue persists")
        statusCode := none
        requestId := ctx.requestId
        timestamp := ctx.timestamp
        duration := ctx.duration
        endpoint := some sendEndpoint }

namespace EmailBuilder

/-!
The fluent `EmailBuilder` (src/index.js lines 1–117).  Its `emailData`
accumulator holds exactly the `SendInput` fields; each setter either throws
(`.error`, modelling `throw new Error(...)`) or returns the updated
accumulator (`.ok`, modelling `return this`).  The `cc`/`bcc` setters are
no-ops when passed `undefined` (`none`).
-/

/-- Model of `EmailBuilder._validateEmailOrArray(emails, fieldName)`: a single address
is validated as one email; a list must be non-empty with every element valid
(the first offender is reported).  Returns the value, or throws. -/
def validateEmailOrArray (emails : StrOrList) (fieldName : String) : Except String StrOrList :=
  match emails with
  | .str s =>
      if isValidEmail s then .ok emails
      else .error ("Invalid \x27" ++ fieldName ++ "\x27 email address: " ++ s)
  | .list l =>
      if l.isEmpty then .error (fieldName ++ " array cannot be empty")
      else match l.find? (fun e => !isValidEmail e) with
           | some bad => .error ("Invalid \x27" ++ fieldName ++ "\x27 email address: " ++ bad)
           | none => .ok emails

/-- Setter `EmailBuilder.to(emails)`. -/
def «to» (emails : StrOrList) (b : SendInput) : Except String SendInput :=
  (validateEmailOrArray emails "to").map fun v => { b with «to» := some v }

/-- Setter `EmailBuilder.cc(emails)`: no-op when `emails` is `undefined`. -/
def cc (emails : Option StrOrList) (b : SendInput) : Except String SendInput :=
  match emails with
  | none => .ok b
  | some v => (validateEmailOrArray v "cc").map fun vv => { b with cc := some vv }

/-- Setter `EmailBuilder.bcc(emails)`: no-op when `emails` is `undefined`. -/
def bcc (emails : Option StrOrList) (b : SendInput) : Except String SendInput :=
  match emails with
  | none => .ok b
  | some v => (validateEmailOrArray v "bcc").map fun vv => { b with bcc := some vv }

/-- Setter `EmailBuilder.from(email)`. -/
def «from» (email : String) (b : SendInput) : Except String SendInput :=
  if isValidEmail email then .ok { b with «from» := some email }
  else .error ("Invalid \x27from\x27 email address: " ++ email)

/-- Setter `EmailBuilder.subject(subject)`: rejects an empty or whitespace-only
string, stores the trimmed subject. -/
def subject (s : String) (b : SendInput) : Except String SendInput :=
  if s = "" ∨ jsTrim s = "" then .error "Subject must be a non-empty string"
  else .ok { b with subject := some (jsTrim s) }

/-- Setter `EmailBuilder.text(content)`. -/
def text (content : String) (b : SendInput) : Except String SendInput :=
  if content = "" then .error "Text content must be a non-empty string"
  else .ok { b with text := some content }

/-- Setter `EmailBuilder.html(content)`. -/
def html (content : String) (b : SendInput) : Except String SendInput :=
  if content = "" then .error "HTML content must be a non-empty string"
  else .ok { b with html := some content }

/-- Setter `EmailBuilder.scheduleAt(date)`: a `Date` must be strictly after `now`
(`date <= new Date()` throws); a string is parsed by the platform `Date`
parser (`parse`; `none` models an invalid date, i.e. `NaN`), then the same
strictly-future check applies; the parsed `Date` is stored. -/
def scheduleAt (now : Int) (parse : String → Option Int) (date : SchedVal)
    (b : SendInput) : Except String SendInput :=
  match date with
  | .date d =>
      if d ≤ now then .error "Scheduled date must be in the future"
      else .ok { b with scheduledAt := some (.date d) }
  | .str s =>
      match parse s with
      | none => .error "Invalid date format for scheduling"
      | some t =>
          if t ≤ now then .error "Scheduled date must be in the future"
          else .ok { b with scheduledAt := some (.date t) }

/-- Terminal `EmailBuilder.send()`: forwards the accumulated `emailData` verbatim to
`this.client.sendEmail`. -/
def send (ctx : RequestCtx) (iso : Int → String) (transport : TransportResult)
    (b : SendInput) : Envelope :=
  sendEmail ctx iso transport b

end EmailBuilder

/-- The methods defined on the `Mailblock` class in src/index.js. -/
def mailblockMethods : List String :=
  ["constructor", "_log", "_generateRequestId", "email", "sendEmail",
   "_categorizeError", "_getErrorSuggestion", "_validateEmailFields"]

/-- The methods declared on the `Mailblock` class in src/index.d.ts
(lines 129–136). -/
def declaredMailblockMethods : List String :=
  ["constructor", "sendEmail", "cancelEmail", "cancelEmails",
   "updateScheduledEmail", "email"]

/-- Invoking a method on a `Mailblock` instance: a name the class does not
define is `undefined`, so calling it throws a `TypeError` instead of
returning an envelope. -/
def invokeMethod (name : String) : Except JsError Unit :=
  if mailblockMethods.contains name then .ok ()
  else .error ⟨"TypeError", "this." ++ name ++ " is not a function"⟩

/-- Discriminator: is a JSON value a string? -/
def Json.isStr : Json → Bool
  | .str _ => true
  | _ => false

/-- Following the spec text (§4.3(a)/§6), not the source: the success body
normalization the spec describes — accept either a flat object or a
`results[]`-wrapped batch shape, extracting the first element of `results`
when batched.  Defined only to be compared with what `sendEmail` does. -/
def specNormalizeData (body : Json) : Json :=
  match body.lookup "results" with
  | some (.arr (x :: _)) => x
  | _ => body

/-- The resolved instant of a `scheduleAt` argument: a `Date` is its own
instant; a string resolves through the platform parser. -/
def resolveInstant (parse : String → Option Int) : SchedVal → Option Int
  | .date d => some d
  | .str s => parse s

/-- Validity of a `to`/`cc`/`bcc` value under the builder and client rules:
one valid address, or a non-empty list of valid addresses. -/
def validField : StrOrList → Bool
  | .str s => isValidEmail s
  | .list l => !l.isEmpty && l.all isValidEmail

/-- A sample `Date.prototype.toISOString` standing in for the platform one. -/
def isoSample : Int → String := fun n => "iso:" ++ toString n

/-- A sample per-call diagnostic context. -/
def ctx0 : RequestCtx := ⟨"req_sample", "2024-01-15T10:30:45.123Z", 5⟩

/-- A minimal send request that passes every validation rule. -/
def sampleInput : SendInput :=
  { «to» := some (.str "a@b.com"), «from» := some "c@d.com",
    subject := some "Hi", text := some "body" }

/-- The payload `sendEmailStage` assembles for `sampleInput`. -/
def samplePayload : Payload :=
  { «to» := .str "a@b.com", «from» := "c@d.com", subject := "Hi", text := some "body" }

end Mailblock

namespace Mailblock

example : isValidEmail "a@b.com" = true := by decide
example : isValidEmail "a@bcom" = false := by decide
example : isValidEmail "a b@c.de" = false := by decide
example : sendEmailStage isoSample sampleInput = .proceed samplePayload := by decide

/-- C1: for an HTTP 429 response, `_categorizeError` returns `CLIENT_ERROR`,
not `RATE_LIMIT_ERROR`: the `400 ≤ s < 500` branch precedes the `s = 429`
branch, so the `RATE_LIMIT_ERROR` branch is dead code, contradicting the
`RATE_LIMIT_ERROR` member of the declared `errorType` union and the dedicated
429 entry of the suggestion table (which is reachable and correct). -/
theorem mb_c1_categorize_429_is_client_error :
    categorizeError 429 = "CLIENT_ERROR" ∧
    getErrorSuggestion 429 = "You are being rate limited. Wait a moment and try again" :=
  ⟨rfl, rfl⟩

/-- C3: the `Mailblock` class defines `sendEmail` and `email` but none of
`cancelEmail`, `cancelEmails`, `updateScheduledEmail`, although the public
type declarations declare all three; invoking any of the three on a
constructed client throws a `TypeError` instead of returning an envelope. -/
theorem mb_c3_cancel_update_missing :
    mailblockMethods.contains "sendEmail" = true ∧
    mailblockMethods.contains "email" = true ∧
    mailblockMethods.contains "cancelEmail" = false ∧
    mailblockMethods.contains "cancelEmails" = false ∧
    mailblockMethods.contains "updateScheduledEmail" = false ∧
    declaredMailblockMethods.contains "cancelEmail" = true ∧
    declaredMailblockMethods.contains "cancelEmails" = true ∧
    declaredMailblockMethods.contains "updateScheduledEmail" = true ∧
    invokeMethod "cancelEmail" = .error ⟨"TypeError", "this.cancelEmail is not a function"⟩ ∧
    invokeMethod "cancelEmails" = .error ⟨"TypeError", "this.cancelEmails is not a function"⟩ ∧
    invokeMethod "updateScheduledEmail" =
      .error ⟨"TypeError", "this.updateScheduledEmail is not a function"⟩ :=
  ⟨rfl, rfl, rfl, rfl, rfl, rfl, rfl, rfl, rfl, rfl, rfl⟩

/-- Inversion for the validation block: a request that reaches the payload
assembly passed every rule, and the payload is the one `buildPayload`
assembles. -/
theorem sendEmailStage_proceed (iso : Int → String) (i : SendInput) (p : Payload)
    (h : sendEmailStage iso i = .proceed p) :
    truthyF i.«to» = true ∧ truthyS i.«from» = true ∧ truthyS i.subject = true ∧
    (truthyS i.text = true ∨ truthyS i.html = true) ∧
    validateEmailFields i.«to» i.cc i.bcc i.«from» = none ∧
    p = buildPayload iso i := by
  unfold sendEmailStage at h
  repeat' split at h
  all_goals simp_all
  rcases Bool.eq_false_or_eq_true (truthyS i.text) with ht | ht
  · exact Or.inl ht
  · exact Or.inr (by simp_all)

/-- C5: the validation rules of `sendEmail` are applied in the fixed order
"to present, from present, subject present, text-or-html present, then
address validation", the first failing rule determining the reported error;
inside address validation `to` is checked before `from`, which is checked
before `cc`, which is checked before `bcc`. -/
theorem mb_c5_validation_order (iso : Int → String) (i : SendInput) :
    (truthyF i.«to» = false →
      sendEmailStage iso i = .validationError "Recipient email address (to) is required")
  ∧ (truthyF i.«to» = true → truthyS i.«from» = false →
      sendEmailStage iso i = .validationError "Sender email address (from) is required")
  ∧ (truthyF i.«to» = true → truthyS i.«from» = true → truthyS i.subject = false →
      sendEmailStage iso i = .validationError "Email subject is required")
  ∧ (truthyF i.«to» = true → truthyS i.«from» = true → truthyS i.subject = true →
      truthyS i.text = false → truthyS i.html = false →
      sendEmailStage iso i = .validationError "Either text or html content is required")
  ∧ (truthyF i.«to» = true → truthyS i.«from» = true → truthyS i.subject = true →
      (truthyS i.text = true ∨ truthyS i.html = true) →
      ∀ e, validateEmailFields i.«to» i.cc i.bcc i.«from» = some e →
        sendEmailStage iso i = .validationError e)
  ∧ (∀ t e, validateEmailOrArray t "recipient" = some e →
      validateEmailFields (some t) i.cc i.bcc i.«from» = some e)
  ∧ (∀ t, validateEmailOrArray t "recipient" = none →
      isValidEmail (i.«from».getD "") = false →
      validateEmailFields (some t) i.cc i.bcc i.«from» =
        some ("Invalid sender email address: " ++ i.«from».getD ""))
  ∧ (∀ t c e, validateEmailOrArray t "recipient" = none →
      isValidEmail (i.«from».getD "") = true →
      validateEmailOrArray c "cc" = some e →
      validateEmailFields (some t) (some c) i.bcc i.«from» = some e) := by
  refine ⟨?_, ?_, ?_, ?_, ?_, ?_, ?_, ?_⟩
  · intro h1; simp [sendEmailStage, h1]
  · intro h1 h2; simp [sendEmailStage, h1, h2]
  · intro h1 h2 h3; simp [sendEmailStage, h1, h2, h3]
  · intro h1 h2 h3 h4 h5; simp [sendEmailStage, h1, h2, h3, h4, h5]
  · intro h1 h2 h3 h4 e he
    rcases h4 with h4 | h4 <;> simp [sendEmailStage, h1, h2, h3, h4, he]
  · intro t e ht; simp [validateEmailFields, ht]
  · intro t ht hf; simp [validateEmailFields, ht, hf]
  · intro t c e ht hf hc; simp [validateEmailFields, ht, hf, hc]

/-- C5 witness: a request missing every field reports the to-required
error, even though `from` and `subject` are missing as well. -/
theorem mb_c5_witness :
    sendEmailStage isoSample {} =
      .validationError "Recipient email address (to) is required" :=
  (mb_c5_validation_order isoSample {}).1 rfl

/-- C8: the payload a validated request sends contains exactly the present
fields: `to`, `from`, `subject` always carry the given values; `text`,
`html`, `cc`, `bcc` are included verbatim when truthy (present and
non-empty) and omitted otherwise — never sent as empty; `scheduled_at`
appears iff `scheduledAt` was given, a `Date` instant converted to its
canonical wire string by `toISOString`. -/
theorem mb_c8_payload_exact_fields (iso : Int → String) (i : SendInput) (p : Payload)
    (h : sendEmailStage iso i = .proceed p) :
    (∀ v, i.«to» = some v → p.«to» = v)
  ∧ (∀ s, i.«from» = some s → p.«from» = s)
  ∧ (∀ s, i.subject = some s → p.subject = s)
  ∧ (truthyS i.text = true → p.text = i.text)
  ∧ (truthyS i.text = false → p.text = none)
  ∧ (truthyS i.html = true → p.html = i.html)
  ∧ (truthyS i.html = false → p.html = none)
  ∧ (truthyF i.cc = true → p.cc = i.cc)
  ∧ (truthyF i.cc = false → p.cc = none)
  ∧ (truthyF i.bcc = true → p.bcc = i.bcc)
  ∧ (truthyF i.bcc = false → p.bcc = none)
  ∧ (∀ d, i.scheduledAt = some (.date d) → p.scheduled_at = some (iso d))
  ∧ (∀ s, i.scheduledAt = some (.str s) → s ≠ "" → p.scheduled_at = some s)
  ∧ (i.scheduledAt = none → p.scheduled_at = none) := by
  obtain ⟨-, -, -, -, -, hp⟩ := sendEmailStage_proceed iso i p h
  subst hp
  refine ⟨?_, ?_, ?_, ?_, ?_, ?_, ?_, ?_, ?_, ?_, ?_, ?_, ?_, ?_⟩ <;>
    first
      | (intro v hv hne; simp [buildPayload, hv, truthySched, hne])
      | (intro v hv; simp [buildPayload, hv, truthySched])
      | (intro hv; simp [buildPayload, hv, truthySched])

/-- C8 witness: a request with `cc`, `html` and a future `Date` schedule;
the payload converts the instant through `toISOString` and omits the absent
`bcc`. -/
theorem mb_c8_witness :
    (Payload.scheduled_at
        { «to» := .str "a@b.com", «from» := "c@d.com", subject := "Hi",
          text := some "body", html := some "<b>x</b>",
          cc := some (.list ["e@f.gh"]), bcc := none,
          scheduled_at := some (isoSample 9999) } = some (isoSample 9999))
  ∧ (Payload.bcc
        { «to» := .str "a@b.com", «from» := "c@d.com", subject := "Hi",
          text := some "body", html := some "<b>x</b>",
          cc := some (.list ["e@f.gh"]), bcc := none,
          scheduled_at := some (isoSample 9999) } = none) := by
  obtain ⟨-, -, -, -, -, -, -, -, -, -, h11, h12, -, -⟩ :=
    mb_c8_payload_exact_fields isoSample
      { «to» := some (.str "a@b.com"), «from» := some "c@d.com",
        subject := some "Hi", text := some "body", html := some "<b>x</b>",
        cc := some (.list ["e@f.gh"]), scheduledAt := some (.date 9999) }
      { «to» := .str "a@b.com", «from» := "c@d.com", subject := "Hi",
        text := some "body", html := some "<b>x</b>",
        cc := some (.list ["e@f.gh"]), bcc := none,
        scheduled_at := some (isoSample 9999) }
      (by decide)
  exact ⟨h12 9999 rfl, h11 rfl⟩

/-- C6: a send call that fails local validation returns, for every possible
transport outcome alike (hence without issuing the HTTP request), the
envelope with `success := false`, `errorType = VALIDATION_ERROR`,
`statusCode = null`, carrying the request id, timestamp and duration of the
call. -/
theorem mb_c6_validation_failure_envelope (ctx : RequestCtx) (iso : Int → String)
    (i : SendInput) (e : String) (h : sendEmailStage iso i = .validationError e)
    (t : TransportResult) :
    sendEmail ctx iso t i =
      { success := false, error := some (.str e), errorType := some "VALIDATION_ERROR",
        statusCode := none, requestId := ctx.requestId, timestamp := ctx.timestamp,
        duration := ctx.duration } := by
  unfold sendEmail
  rw [h]

/-- C6 witness: a request with no fields at all, against a transport that
would have answered 200. -/
theorem mb_c6_witness :
    sendEmail ctx0 isoSample (.resp 200 .null) {} =
      { success := false,
        error := some (.str "Recipient email address (to) is required"),
        errorType := some "VALIDATION_ERROR", statusCode := none,
        requestId := "req_sample", timestamp := "2024-01-15T10:30:45.123Z",
        duration := 5 } :=
  mb_c6_validation_failure_envelope ctx0 isoSample {} _ rfl (.resp 200 .null)

/-- C7: when the transport throws instead of producing a response, the
operation still returns an envelope (it never raises) with
`success := false`, `statusCode = null`, and `NETWORK_ERROR` with the
connectivity suggestion exactly when the thrown error is a `TypeError`
whose message mentions `fetch`, `UNKNOWN_ERROR` with the generic retry
suggestion otherwise. -/
theorem mb_c7_transport_exception (ctx : RequestCtx) (iso : Int → String)
    (i : SendInput) (p : Payload) (err : JsError)
    (h : sendEmailStage iso i = .proceed p) :
    (isFetchTypeError err = true →
      sendEmail ctx iso (.exn err) i =
        { success := false,
          error := some (.str ("Failed to send email: " ++ err.message)),
          errorType := some "NETWORK_ERROR",
          suggestion := some "Check your internet connection and try again",
          statusCode := none, requestId := ctx.requestId, timestamp := ctx.timestamp,
          duration := ctx.duration, endpoint := some sendEndpoint })
  ∧ (isFetchTypeError err = false →
      sendEmail ctx iso (.exn err) i =
        { success := false,
          error := some (.str ("Failed to send email: " ++ err.message)),
          errorType := some "UNKNOWN_ERROR",
          suggestion := some "Please try again or contact support if the issue persists",
          statusCode := none, requestId := ctx.requestId, timestamp := ctx.timestamp,
          duration := ctx.duration, endpoint := some sendEndpoint }) := by
  unfold sendEmail
  rw [h]
  constructor <;> intro hf <;> simp [hf]

/-- C2 counterexample: on the flat `sendEmail` path a schedule instant in
the past (here epoch instant 0, which is ≤ any validation-time clock ≥ 0,
including exactly now at now = 0) passes validation and reaches the payload:
`sendEmail` never inspects `scheduledAt` during validation — indeed
`sendEmailStage` does not even take a clock. -/
theorem mb_c2_counterexample :
    sendEmailStage isoSample { sampleInput with scheduledAt := some (.date 0) } =
      .proceed { samplePayload with scheduled_at := some (isoSample 0) } := by
  decide

/-- C2 amended: only the fluent builder path validates the schedule
instant.  `EmailBuilder.scheduleAt` fails when a string does not parse, and
fails when the resolved instant is ≤ now (exactly now included); it succeeds
exactly when the instant is strictly in the future, storing the resolved
`Date`.  The flat `sendEmail` path performs no such check (see the
counterexample). -/
theorem mb_c2_schedule_validation (now : Int) (parse : String → Option Int)
    (b : SendInput) (v : SchedVal) :
    (resolveInstant parse v = none →
      EmailBuilder.scheduleAt now parse v b = .error "Invalid date format for scheduling")
  ∧ (∀ t, resolveInstant parse v = some t → t ≤ now →
      EmailBuilder.scheduleAt now parse v b = .error "Scheduled date must be in the future")
  ∧ (∀ t, resolveInstant parse v = some t → now < t →
      EmailBuilder.scheduleAt now parse v b = .ok { b with scheduledAt := some (.date t) }) := by
  rcases v with d | s
  · refine ⟨fun h => by simp [resolveInstant] at h, fun t ht hle => ?_, fun t ht hlt => ?_⟩
    · obtain rfl : d = t := by simpa [resolveInstant] using ht
      simp [EmailBuilder.scheduleAt, hle]
    · obtain rfl : d = t := by simpa [resolveInstant] using ht
      simp [EmailBuilder.scheduleAt, not_le.mpr hlt]
  · rcases hp : parse s with _ | t0
    · exact ⟨fun _ => by simp [EmailBuilder.scheduleAt, hp],
        fun t ht => by simp [resolveInstant, hp] at ht,
        fun t ht => by simp [resolveInstant, hp] at ht⟩
    · refine ⟨fun h => by simp [resolveInstant, hp] at h, fun t ht hle => ?_, fun t ht hlt => ?_⟩
      · obtain rfl : t0 = t := by simpa [resolveInstant, hp] using ht
        simp [EmailBuilder.scheduleAt, hp, hle]
      · obtain rfl : t0 = t := by simpa [resolveInstant, hp] using ht
        simp [EmailBuilder.scheduleAt, hp, not_le.mpr hlt]

/-- C2 witness: with the clock at 5 — a future instant 10 is accepted and
stored, the boundary instant 5 (exactly now) is rejected, and an
unparseable string is rejected. -/
theorem mb_c2_witness :
    EmailBuilder.scheduleAt 5 (fun _ => none) (.date 10) {} =
      .ok { scheduledAt := some (.date 10) }
  ∧ EmailBuilder.scheduleAt 5 (fun _ => none) (.date 5) {} =
      .error "Scheduled date must be in the future"
  ∧ EmailBuilder.scheduleAt 5 (fun _ => none) (.str "not a date") {} =
      .error "Invalid date format for scheduling" :=
  ⟨(mb_c2_schedule_validation 5 (fun _ => none) {} (.date 10)).2.2 10 rfl (by norm_num),
   (mb_c2_schedule_validation 5 (fun _ => none) {} (.date 5)).2.1 5 rfl le_rfl,
   (mb_c2_schedule_validation 5 (fun _ => none) {} (.str "not a date")).1 rfl⟩

/-- The batched success body of the spec (§6): `{results: [...], ...}`. -/
def batchedBody : Json := .obj [("results", .arr [.str "x1"])]

/-- C4 counterexample: on a 2xx response `sendEmail` returns the backend
body verbatim as `data`; it never extracts `results[0]`.  For the batched
body the claim predicts `data = results[0]` (a string here), but the
returned `data` is the whole object — witnessed by the `Json.isStr`
discriminator separating the two. -/
theorem mb_c4_counterexample :
    (sendEmail ctx0 isoSample (.resp 200 batchedBody) sampleInput).data = some batchedBody
  ∧ specNormalizeData batchedBody = .str "x1"
  ∧ Json.isStr batchedBody = false
  ∧ Json.isStr (specNormalizeData batchedBody) = true
  ∧ (sendEmail ctx0 isoSample (.resp 200 batchedBody) sampleInput).message =
      some "Email sent successfully" :=
  ⟨rfl, rfl, rfl, rfl, rfl⟩

/-- C4 amended: on a 2xx response the envelope has `success := true`, its
`data` is the backend JSON body verbatim (no `results[]` normalization),
and its `message` is "Email scheduled successfully" when scheduling was
requested and "Email sent successfully" otherwise. -/
theorem mb_c4_success_envelope (ctx : RequestCtx) (iso : Int → String) (i : SendInput)
    (p : Payload) (status : Int) (body : Json)
    (h : sendEmailStage iso i = .proceed p) (h1 : 200 ≤ status) (h2 : status ≤ 299) :
    (truthySched i.scheduledAt = true →
      sendEmail ctx iso (.resp status body) i =
        { success := true, data := some body,
          message := some "Email scheduled successfully",
          requestId := ctx.requestId, timestamp := ctx.timestamp,
          duration := ctx.duration })
  ∧ (truthySched i.scheduledAt = false →
      sendEmail ctx iso (.resp status body) i =
        { success := true, data := some body,
          message := some "Email sent successfully",
          requestId := ctx.requestId, timestamp := ctx.timestamp,
          duration := ctx.duration }) := by
  unfold sendEmail
  rw [h]
  constructor <;> intro hs <;> simp [h1, h2, hs]

/-- C4 witness: a flat 200 body on a scheduled request yields a success
envelope with the body as `data` and the scheduled message. -/
theorem mb_c4_witness :
    sendEmail ctx0 isoSample (.resp 200 (.obj [("id", .str "x1")]))
        { sampleInput with scheduledAt := some (.date 9999) } =
      { success := true, data := some (.obj [("id", .str "x1")]),
        message := some "Email scheduled successfully",
        requestId := "req_sample", timestamp := "2024-01-15T10:30:45.123Z",
        duration := 5 } :=
  (mb_c4_success_envelope ctx0 isoSample
      { sampleInput with scheduledAt := some (.date 9999) }
      { samplePayload with scheduled_at := some (isoSample 9999) }
      200 (.obj [("id", .str "x1")]) (by decide) (by norm_num) (by norm_num)).1 rfl

/-- C10 counterexample: a whitespace-only subject (truthy, but trimming to
the empty string) passes the flat path validation and reaches the payload
with the untrimmed whitespace subject. -/
theorem mb_c10_counterexample :
    sendEmailStage isoSample { sampleInput with subject := some " " } =
      .proceed { samplePayload with subject := " " }
  ∧ jsTrim " " = "" :=
  ⟨by decide, rfl⟩

/-- C10 amended: a request accepted by the flat `sendEmail` validation has
a non-empty subject string, but it may still be whitespace-only (trimming
can empty it, see the counterexample); the builder path is stricter — its
`subject` setter only accepts a subject whose trimmed form is non-empty and
stores the trimmed subject. -/
theorem mb_c10_subject_nonempty (iso : Int → String) (i : SendInput) (p : Payload)
    (h : sendEmailStage iso i = .proceed p) :
    p.subject ≠ ""
  ∧ (∀ s b b', EmailBuilder.subject s b = .ok b' →
      b'.subject = some (jsTrim s) ∧ jsTrim s ≠ "") := by
  obtain ⟨-, -, h3, -, -, hp⟩ := sendEmailStage_proceed iso i p h
  constructor
  · subst hp
    rcases hs : i.subject with _ | s
    · simp [hs, truthyS] at h3
    · simp [hs, truthyS] at h3
      simp [buildPayload, hs, h3]
  · intro s b b' hb
    unfold EmailBuilder.subject at hb
    split at hb
    · exact absurd hb (by simp)
    · rename_i hcond
      push_neg at hcond
      cases hb
      exact ⟨rfl, hcond.2⟩

/-- C10 witness: the sample request yields a non-empty payload subject, and
the builder trims and accepts a padded subject. -/
theorem mb_c10_witness :
    samplePayload.subject ≠ ""
  ∧ (SendInput.subject { subject := some "Hi" } = some (jsTrim " Hi ")
      ∧ jsTrim " Hi " ≠ "") := by
  obtain ⟨h1, h2⟩ :=
    mb_c10_subject_nonempty isoSample sampleInput samplePayload (by decide)
  exact ⟨h1, h2 " Hi " {} { subject := some "Hi" } rfl⟩

/-- A valid field value sails through the builder validator unchanged. -/
theorem builderValidate_ok (v : StrOrList) (f : String) (h : validField v = true) :
    EmailBuilder.validateEmailOrArray v f = .ok v := by
  rcases v with s | l
  · simp [validField] at h
    simp [EmailBuilder.validateEmailOrArray, h]
  · simp [validField] at h
    have hfind : l.find? (fun e => !isValidEmail e) = none := by
      rw [List.find?_eq_none]
      intro x hx
      simp [h.2 x hx]
    simp [EmailBuilder.validateEmailOrArray, h.1, hfind, List.isEmpty_iff]

/-- Conditionally apply a builder setter: model of calling the setter in
the chain exactly when the caller has a value for that field. -/
def optApply {α : Type} (f : α → SendInput → Except String SendInput)
    (o : Option α) (b : SendInput) : Except String SendInput :=
  match o with
  | none => .ok b
  | some v => f v b

/-- The builder chain of the C9 counterexample:
to `a@b.com`, from `c@d.com`, subject `" Hi "`, text `body`. -/
def builderChainSample : Except String SendInput :=
  EmailBuilder.«to» (.str "a@b.com") {} >>= EmailBuilder.«from» "c@d.com" >>=
    EmailBuilder.subject " Hi " >>= EmailBuilder.text "body"

/-- The flat request with the very same field values the builder chain was
given. -/
def flatUntrimmedInput : SendInput :=
  { «to» := some (.str "a@b.com"), «from» := some "c@d.com",
    subject := some " Hi ", text := some "body" }

/-- C9 counterexample: the fluent chain given subject `" Hi "` accumulates
the trimmed subject `"Hi"`, so its outbound payload differs from the one
`sendEmail` builds for a flat object holding the identical values (subject
kept verbatim as `" Hi "`): the two payloads are decidably unequal. -/
theorem mb_c9_counterexample :
    builderChainSample = .ok sampleInput
  ∧ sendEmailStage isoSample sampleInput = .proceed samplePayload
  ∧ sendEmailStage isoSample flatUntrimmedInput =
      .proceed { samplePayload with subject := " Hi " }
  ∧ decide (samplePayload = { samplePayload with subject := " Hi " }) = false :=
  ⟨rfl, by decide, by decide, by decide⟩

/-- C9 amended: the fluent chain produces the flat request holding the
builder-normalized values — the subject trimmed, the schedule resolved to a
`Date` — so the two APIs produce identical outbound payloads whenever the
given subject is already trimmed and the schedule is given as a `Date`
(`send()` itself forwards the accumulated record to `sendEmail` verbatim);
with an untrimmed subject the payloads differ (see the counterexample). -/
theorem mb_c9_builder_flat (toV : StrOrList) (ccV bccV : Option StrOrList)
    (fromV subjV textV : String) (htmlV : Option String) (schedV : Option Int)
    (now : Int) (parse : String → Option Int)
    (hto : validField toV = true)
    (hcc : ∀ v, ccV = some v → validField v = true)
    (hbcc : ∀ v, bccV = some v → validField v = true)
    (hfrom : isValidEmail fromV = true)
    (hsub : jsTrim subjV ≠ "")
    (htext : textV ≠ "")
    (hhtml : ∀ s, htmlV = some s → s ≠ "")
    (hsched : ∀ d, schedV = some d → now < d) :
    (EmailBuilder.«to» toV {} >>= EmailBuilder.cc ccV >>= EmailBuilder.bcc bccV >>=
        EmailBuilder.«from» fromV >>= EmailBuilder.subject subjV >>=
        EmailBuilder.text textV >>= optApply EmailBuilder.html htmlV >>=
        optApply (fun d => EmailBuilder.scheduleAt now parse (.date d)) schedV)
      = .ok { «to» := some toV, cc := ccV, bcc := bccV, «from» := some fromV,
              subject := some (jsTrim subjV), text := some textV, html := htmlV,
              scheduledAt := schedV.map SchedVal.date }
  ∧ (∀ ctx iso transport b,
      EmailBuilder.send ctx iso transport b = sendEmail ctx iso transport b) := by
  refine ⟨?_, fun _ _ _ _ => rfl⟩
  have hsubne : subjV ≠ "" := fun h => hsub (by simp [h, jsTrim])
  rcases ccV with _ | cv <;> rcases bccV with _ | bv <;>
    rcases htmlV with _ | hv <;> rcases schedV with _ | dv <;>
    simp_all [EmailBuilder.«to», EmailBuilder.cc, EmailBuilder.bcc, EmailBuilder.«from»,
      EmailBuilder.subject, EmailBuilder.text, EmailBuilder.html, EmailBuilder.scheduleAt,
      optApply, builderValidate_ok, Bind.bind, Except.bind, Except.map, not_le.mpr]

/-- C9 witness: with already-normalized values (trimmed subject, `Date`
schedule) the chain accumulates exactly the flat request, so both API
styles hand the identical record to `sendEmail`. -/
theorem mb_c9_witness :
    (EmailBuilder.«to» (.str "a@b.com") {} >>= EmailBuilder.cc none >>=
        EmailBuilder.bcc none >>= EmailBuilder.«from» "c@d.com" >>=
        EmailBuilder.subject "Hi" >>= EmailBuilder.text "body" >>=
        optApply EmailBuilder.html none >>=
        optApply (fun d => EmailBuilder.scheduleAt 0 (fun _ => none) (.date d)) none)
      = .ok sampleInput :=
  (mb_c9_builder_flat (.str "a@b.com") none none "c@d.com" "Hi" "body" none none
      0 (fun _ => none) (by decide) (fun v h => nomatch h) (fun v h => nomatch h)
      (by decide) (by decide) (by decide) (fun s h => nomatch h)
      (fun d h => nomatch h)).1

/-- C7 witness: a simulated connection failure (`TypeError: Failed to fetch`)
on a valid request. -/
theorem mb_c7_witness :
    sendEmail ctx0 isoSample (.exn ⟨"TypeError", "Failed to fetch"⟩) sampleInput =
      { success := false,
        error := some (.str "Failed to send email: Failed to fetch"),
        errorType := some "NETWORK_ERROR",
        suggestion := some "Check your internet connection and try again",
        statusCode := none, requestId := "req_sample",
        timestamp := "2024-01-15T10:30:45.123Z", duration := 5,
        endpoint := some sendEndpoint } :=
  (mb_c7_transport_exception ctx0 isoSample sampleInput samplePayload
    ⟨"TypeError", "Failed to fetch"⟩ (by decide)).1 (by decide)

end Mailblock
